import Mathlib

/-!
Shallow embedding of the `nice_tools` Python library
(src/nice_tools/logger_tools.py, thread_tools.py, func_tools.py),
together with theorems settling the specification claims about it.

Conventions of the embedding:
* Python strings are Lean `String`s; `len` is `String.length` (both count
  Unicode code points).
* `None`-able Python values are `Option`s.
* Python functions that may raise are `Except`-valued; an exception value
  carries the information the claims need (its class, or just an opaque
  error value).
* Side effects (telegram sends, file writes, directory creation, spawned
  threads) are reified as explicit action traces / state records.
-/

namespace NiceTools

/-! ## logger_tools._make_message -/

/-- Python `str(x)` for an `Optional[str]` interpolated into an f-string:
`None` renders as the text `None`. -/
def pyStr : Option String → String
  | none => "None"
  | some s => s

/-- Python `repr` of a tuple whose elements have the given item renderings
(a one-element tuple carries a trailing comma). -/
def reprTuple (items : List String) : String :=
  match items with
  | [x] => "(" ++ x ++ ",)"
  | _ => "(" ++ String.intercalate ", " items ++ ")"

/-- Python `repr` of a kwargs dict whose keys are strings and whose values
have the given renderings. -/
def reprDict (items : List (String × String)) : String :=
  "\x7b" ++ String.intercalate ", " (items.map (fun p => "\x27" ++ p.1 ++ "\x27: " ++ p.2)) ++ "\x7d"

/-- Embedding of `_make_message(msg, f_name, *args, **kwargs)`
(logger_tools.py lines 26-34): positional context is given by the
renderings of the args tuple elements, keyword context by the renderings
of the kwargs dict entries. -/
def _make_message (msg : String) (f_name : Option String)
    (args : List String) (kwargs : List (String × String)) : String :=
  let _msg := "[" ++ pyStr f_name ++ "] - " ++ msg
  let _msg := if args.length > 0 then _msg ++ " | " ++ reprTuple args else _msg
  let _msg := if kwargs.length > 0 then _msg ++ " | " ++ reprDict kwargs else _msg
  _msg

/-! ## logger_tools.ColoredFormatter -/

/-- Default format string `_FORMAT` (logger_tools.py line 23). -/
def _FORMAT : String := "%(asctime)s - (%(lineno)d):[%(levelname)s] --> %(message)s"

/-- ANSI code `grey` from `ColoredFormatter.__init__` (octal 033 = 0x1b). -/
def grey : String := "\x1b[90m"

/-- ANSI code `blue` from `ColoredFormatter.__init__`. -/
def blue : String := "\x1b[94m"

/-- ANSI code `yellow` from `ColoredFormatter.__init__`. -/
def yellow : String := "\x1b[93m"

/-- ANSI code `red` from `ColoredFormatter.__init__`. -/
def red : String := "\x1b[91m"

/-- ANSI code `bold_red` from `ColoredFormatter.__init__`. -/
def bold_red : String := "\x1b[31;1m"

/-- ANSI `reset` code from `ColoredFormatter.__init__`. -/
def reset : String := "\x1b[0m"

/-- The numeric values of the five recognized severity levels of the Python
`logging` module: DEBUG, INFO, WARNING, ERROR, CRITICAL. -/
def levelNos : List Nat := [10, 20, 30, 40, 50]

/-- The `self.formats` table built by `ColoredFormatter.__init__`
(logger_tools.py lines 39-70), as an association list keyed by level
number. The dict keys `logging.DEBUG` .. `logging.CRITICAL` are the
numerals 10, 20, 30, 40, 50. -/
def ColoredFormatter.formats (name fmt : String) (colored : Bool) : List (Nat × String) :=
  let fullFormat := "[" ++ name ++ "] - " ++ fmt
  if colored then
    [(10, blue ++ fullFormat ++ reset),
     (20, grey ++ fullFormat ++ reset),
     (30, yellow ++ fullFormat ++ reset),
     (40, red ++ fullFormat ++ reset),
     (50, bold_red ++ fullFormat ++ reset)]
  else
    [(10, fullFormat),
     (20, fullFormat),
     (30, fullFormat),
     (40, fullFormat),
     (50, fullFormat)]

/-- Python `dict.get(k)` on an association list: `some` of the value of the
entry whose key is `k`, or `none` when no entry matches. -/
def dictGet (d : List (Nat × String)) (k : Nat) : Option String :=
  (d.find? (fun p => p.1 == k)).map (fun p => p.2)

/-- A `logging.LogRecord` restricted to the fields the formats in this
library interpolate. -/
structure LogRecord where
  levelno : Nat
  levelname : String
  message : String
  lineno : Nat
  funcName : String
  asctime : String
deriving DecidableEq

/-- The effective format string of `logging.Formatter(fmt)`: the stdlib
documents that `fmt = None` selects the default format
`%(message)s` (external library behaviour, not repo code). -/
def formatterFmt : Option String → String
  | none => "%(message)s"
  | some f => f

/-- Percent-style interpolation performed by `logging.Formatter.format`
for the record fields used by this library (external library behaviour,
not repo code). -/
def loggingFormat (fmt : String) (r : LogRecord) : String :=
  ((((fmt.replace "%(asctime)s" r.asctime).replace
      "%(levelname)s" r.levelname).replace
      "%(lineno)d" (toString r.lineno)).replace
      "%(funcName)s" r.funcName).replace
      "%(message)s" r.message

/-- Embedding of `ColoredFormatter.format(record)` (logger_tools.py lines
72-75): look the level up in the formats table with `dict.get` and render
the record through a fresh `logging.Formatter` built from the lookup
result. -/
def ColoredFormatter.format (formats : List (Nat × String)) (record : LogRecord) : String :=
  let log_fmt := dictGet formats record.levelno
  loggingFormat (formatterFmt log_fmt) record

/-- The ANSI escape character ESC (0x1b). -/
def escChar : Char := Char.ofNat 27

/-- Number of ANSI escape introducers (ESC characters) in a string; each
ANSI color or reset code of this library contains exactly one. -/
def countEsc (s : String) : Nat := s.data.countP (fun c => c == escChar)

/-- The level-specific ANSI start code the colored table uses for each of
the five recognized levels. -/
def levelColor (lvl : Nat) : String :=
  if lvl == 10 then blue
  else if lvl == 20 then grey
  else if lvl == 30 then yellow
  else if lvl == 40 then red
  else bold_red

theorem countEsc_append (a b : String) : countEsc (a ++ b) = countEsc a + countEsc b := by
  simp [countEsc, String.data_append, List.countP_append]

/-! ## logger_tools.TelegramHandler

The telegram bot transport is external; its observable behaviour in one
`send` call is the ordered list of remote calls attempted. An environment
parameter of type `TgAction → Option ε` says, for each attempted call,
whether it succeeds (`none`) or raises an exception-derived error
(`some e`); a second parameter models `open(...).write` the same way. -/

/-- One remote call of the telegram transport: `bot.send_message(chat_id,
text)` or `bot.send_document(chat_id, path)`. -/
inductive TgAction
  | message (chat_id : Int) (text : String)
  | document (chat_id : Int) (path : String)
deriving DecidableEq

/-- Run a list of remote calls in order, stopping at the first one whose
behaviour raises; returns the attempted calls and the raised error, if
any (a Python `for` loop over transport calls). -/
def runActions {ε : Type} (behave : TgAction → Option ε) : List TgAction → List TgAction × Option ε
  | [] => ([], none)
  | a :: rest =>
    match behave a with
    | some e => ([a], some e)
    | none =>
      let r := runActions behave rest
      (a :: r.1, r.2)

/-- State of a `TelegramHandler` (logger_tools.py lines 78-93): the chat id
list and the async flag (`bot` is the external transport, `fmt` plays no
role in the claims about `send`). -/
structure TelegramHandler where
  chat_ids : List Int
  run_async : Bool
deriving DecidableEq

/-- The `self._MAX_LEN` attribute set by `TelegramHandler.__init__`. -/
def TelegramHandler._MAX_LEN : Nat := 4096

/-- Embedding of `TelegramHandler._send_message` (lines 95-97): one
`send_message` per chat id, in list order. -/
def TelegramHandler._send_message {ε : Type} (h : TelegramHandler)
    (behave : TgAction → Option ε) (msg : String) : List TgAction × Option ε :=
  runActions behave (h.chat_ids.map (fun c => TgAction.message c msg))

/-- Embedding of `TelegramHandler._send_document` (lines 99-101): one
`send_document` per chat id, in list order. -/
def TelegramHandler._send_document {ε : Type} (h : TelegramHandler)
    (behave : TgAction → Option ε) (doc : String) : List TgAction × Option ε :=
  runActions behave (h.chat_ids.map (fun c => TgAction.document c doc))

/-- Embedding of `TelegramHandler._send_as_document` (lines 103-107):
write the message to `logs/<rand_name>-logs.txt` (where `rand_name` is
the random token drawn from `uuid4`), then deliver that path as a
document; `fw path content` is the behaviour of the file write. -/
def TelegramHandler._send_as_document {ε : Type} (h : TelegramHandler)
    (behave : TgAction → Option ε) (fw : String → String → Option ε)
    (rand_name msg : String) : List TgAction × Option ε :=
  let path := "logs/" ++ rand_name ++ "-logs.txt"
  match fw path msg with
  | some e => ([], some e)
  | none => h._send_document behave path

/-- The body of the `try` block of `TelegramHandler.send` (lines 110-114):
document delivery when `len(msg) > self._MAX_LEN`, message delivery
otherwise. -/
def TelegramHandler.sendBody {ε : Type} (h : TelegramHandler)
    (behave : TgAction → Option ε) (fw : String → String → Option ε)
    (rand_name msg : String) : List TgAction × Option ε :=
  if msg.length > TelegramHandler._MAX_LEN then
    h._send_as_document behave fw rand_name msg
  else
    h._send_message behave msg

/-- Embedding of `TelegramHandler.send` (lines 109-116): run the body,
catch any raised exception at the top level and print it (second
component: the diagnostics printed). `send` itself returns normally in
every case, which the `List ε` result type makes structural. -/
def TelegramHandler.send {ε : Type} (h : TelegramHandler)
    (behave : TgAction → Option ε) (fw : String → String → Option ε)
    (rand_name msg : String) : List TgAction × List ε :=
  let r := h.sendBody behave fw rand_name msg
  (r.1, r.2.toList)

/-! ## logger_tools.NiceLogger -/

/-- Arguments a `ColoredFormatter` is constructed with when attached to a
handler. -/
structure FormatterCfg where
  name : String
  fmt : String
  colored : Bool
deriving DecidableEq

/-- One handler attached by `NiceLogger.__init__`, with the constructor
arguments the source passes. -/
inductive Handler
  | stream (formatter : FormatterCfg)
  | timedRotatingFile (filename : String) (when_ : String) (backupCount : Nat)
      (encoding : String) (formatter : FormatterCfg)
  | telegram (token : Option String) (chat_ids : Option (List Int)) (run_async : Bool)
deriving DecidableEq

/-- Whether a handler is the telegram notification sink. -/
def Handler.isTelegram : Handler → Bool
  | .telegram _ _ _ => true
  | _ => false

/-- Observable construction state of a `NiceLogger`: the handlers attached,
in order, and the folders ensured to exist by `_make_folder` (which
creates the folder when absent), in order. -/
structure NiceLoggerState where
  handlers : List Handler
  foldersMade : List String
deriving DecidableEq

/-- Embedding of `NiceLogger.__handle_telegram` (logger_tools.py lines
187-195): raise `ValueError` when the explicit flag is set and token or
chat ids are `None`; afterwards force the flag on when both are present.
Returns the resulting value of `self.__enable_telegram`. -/
def __handle_telegram (enable_telegram : Bool) (telegram_token : Option String)
    (telegram_chat_ids : Option (List Int)) : Except String Bool :=
  if enable_telegram && telegram_token.isNone then
    .error "When enable_telegram is True, Telegram token is required"
  else if enable_telegram && telegram_chat_ids.isNone then
    .error "When enable_telegram is True, Telegram chat ids are required"
  else if telegram_chat_ids.isSome && telegram_token.isSome then
    .ok true
  else
    .ok enable_telegram

/-- Embedding of `NiceLogger.__init__` (logger_tools.py lines 138-185):
validate the telegram configuration first, then attach the console
handler, then (when `enable_file`) ensure `log_folder` exists and attach
a `TimedRotatingFileHandler` with filename `f"logs/{name}-logs"` as
written in the source, then (when telegram ended up enabled) attach the
`TelegramHandler`. -/
def NiceLogger.init (name : String) (fmt : String) (enable_file : Bool)
    (enable_telegram : Bool) (telegram_token : Option String)
    (telegram_chat_ids : Option (List Int)) (tele_run_async : Bool)
    (colored : Bool) (when_ : String) (backup_count : Nat)
    (encoding : String) (log_folder : String) : Except String NiceLoggerState :=
  match __handle_telegram enable_telegram telegram_token telegram_chat_ids with
  | .error e => .error e
  | .ok enableTg =>
    let st0 : NiceLoggerState := ⟨[Handler.stream ⟨name, fmt, colored⟩], []⟩
    let st1 : NiceLoggerState :=
      if enable_file then
        ⟨st0.handlers ++ [Handler.timedRotatingFile ("logs/" ++ name ++ "-logs")
            when_ backup_count encoding ⟨name, fmt, false⟩],
         st0.foldersMade ++ [log_folder]⟩
      else st0
    let st2 : NiceLoggerState :=
      if enableTg then
        ⟨st1.handlers ++ [Handler.telegram telegram_token telegram_chat_ids tele_run_async],
         st1.foldersMade⟩
      else st1
    .ok st2

/-! ## thread_tools

`run_in_threadpool` is modelled twice, at two boundaries:
* `run_in_threadpool` itself, over a Lean function, for its return-value
  contract (a pool submission followed by a blocking `result()` computes
  the value of the function);
* the Python call `run_in_threadpool(func, *args, **kwargs)` made by the
  wrapper of `run_in_threadpool_decorator`, where the CPython
  positional/keyword parameter binding against the signature
  `run_in_threadpool(func, return_result=False, *args, **kwargs)`
  determines which arguments actually reach `func`. -/

/-- A `concurrent.futures` future already carrying the value its callable
computes (the pool runs the callable; `result()` blocks until done). -/
structure Future (β : Type) where
  val : β

/-- `ThreadPoolExecutor().submit(func, x)`: the pool runs `func x`. -/
def ThreadPoolExecutor.submit {α β : Type} (func : α → β) (x : α) : Future β :=
  ⟨func x⟩

/-- `Future.result()`: block until completion and return the value. -/
def Future.result {β : Type} (fut : Future β) : β := fut.val

/-- Embedding of `run_in_threadpool(func, return_result, x)`
(thread_tools.py lines 17-40): when `return_result` is truthy, submit and
block on `result()`; otherwise submit fire-and-forget and fall off the
end of the function (Python returns `None`, here `none`). -/
def run_in_threadpool {α β : Type} (func : α → β) (return_result : Bool) (x : α) : Option β :=
  if return_result then
    some (ThreadPoolExecutor.submit func x).result
  else
    let _ := ThreadPoolExecutor.submit func x
    none

/-- A Python runtime value, as far as truthiness and identity matter to
the claims about the decorators. -/
inductive Val
  | vint (n : Int)
  | vstr (s : String)
  | vbool (b : Bool)
  | vnone
deriving DecidableEq

/-- Python truthiness of a `Val`. -/
def Val.truthy : Val → Bool
  | .vint n => n != 0
  | .vstr s => s.length > 0
  | .vbool b => b
  | .vnone => false

/-- The thread spawn performed by `run_in_thread`: `Thread(target=func,
args=args, kwargs=kwargs).start()` invokes `func` with exactly these
arguments on a new thread. -/
structure ThreadRun where
  args : List Val
  kwargs : List (String × Val)
deriving DecidableEq

/-- The pool submission performed by `run_in_threadpool`: `func` is
invoked with `fargs`/`fkwargs`; `blocking` says whether the caller then
blocks on `result()` (the `return_result` path). -/
structure PoolRun where
  fargs : List Val
  fkwargs : List (String × Val)
  blocking : Bool
deriving DecidableEq

/-- CPython parameter binding of the call `run_in_thread(func, *args,
**kwargs)` against the signature `run_in_thread(func, *args, **kwargs)`
(thread_tools.py lines 43-60): a keyword argument named `func` collides
with the already-bound positional parameter and raises `TypeError`;
otherwise all arguments are forwarded unchanged. -/
def bindThreadCall (args : List Val) (kwargs : List (String × Val)) : Except String ThreadRun :=
  if kwargs.any (fun p => p.1 == "func") then
    .error "TypeError: got multiple values for argument func"
  else
    .ok ⟨args, kwargs⟩

/-- CPython parameter binding of the call `run_in_threadpool(func, *args,
**kwargs)` against the signature `run_in_threadpool(func, return_result=False,
*args, **kwargs)` (thread_tools.py lines 17, 94): the first positional
argument, when present, binds to `return_result`, and only the remaining
ones reach `func`; with no positional argument a keyword `return_result`
binds to the parameter and is removed from the kwargs that reach `func`;
a keyword named `func`, or a keyword `return_result` together with a
positional first argument, raises `TypeError`. -/
def bindThreadpoolCall (args : List Val) (kwargs : List (String × Val)) :
    Except String (Bool × List Val × List (String × Val)) :=
  if kwargs.any (fun p => p.1 == "func") then
    .error "TypeError: got multiple values for argument func"
  else
    match args with
    | a :: rest =>
      if kwargs.any (fun p => p.1 == "return_result") then
        .error "TypeError: got multiple values for argument return_result"
      else
        .ok (a.truthy, rest, kwargs)
    | [] =>
      match kwargs.find? (fun p => p.1 == "return_result") with
      | some p => .ok (p.2.truthy, [], kwargs.filter (fun q => q.1 != "return_result"))
      | none => .ok (false, [], kwargs)

/-- Embedding of the wrapper produced by `run_in_thread_decorator`
(thread_tools.py lines 63-78) applied to `args`/`kwargs`: it calls
`run_in_thread(func, *args, **kwargs)`, which starts a thread invoking
`func` with those arguments; the wrapper body has no `return`, so the
wrapper itself returns `None`. -/
def run_in_thread_decorator (args : List Val) (kwargs : List (String × Val)) :
    Except String ThreadRun :=
  bindThreadCall args kwargs

/-- Embedding of the wrapper produced by `run_in_threadpool_decorator`
(thread_tools.py lines 81-96) applied to `args`/`kwargs`: it calls
`run_in_threadpool(func, *args, **kwargs)`; the binding of that call
decides what reaches `func` and whether the submission blocks; the
wrapper body has no `return`, so the wrapper itself returns `None`. -/
def run_in_threadpool_decorator (args : List Val) (kwargs : List (String × Val)) :
    Except String PoolRun :=
  (bindThreadpoolCall args kwargs).map (fun b => ⟨b.2.1, b.2.2, b.1⟩)

/-! ## func_tools.catch_exception_decorator -/

/-- The Python exception classes the model distinguishes. `typeError` is
also the class of the error CPython itself raises when an `except`
clause expression is not a class or tuple of classes. -/
inductive ExcClass
  | excBase
  | valueError
  | keyError
  | typeError
deriving DecidableEq

/-- Subclass test between the modelled classes: every modelled class
derives from `Exception` (`excBase`); the leaf classes are unrelated to
each other. -/
def ExcClass.isSubclassOf (c d : ExcClass) : Bool :=
  c == d || d == ExcClass.excBase

/-- An exception instance, identified by its class. -/
structure PyExc where
  cls : ExcClass
deriving DecidableEq

/-- The runtime value an `except ... :` clause tests against: a tuple of
classes (valid) or a list of classes (not a valid except target). -/
inductive ExceptTarget
  | tup (cs : List ExcClass)
  | lst (cs : List ExcClass)
deriving DecidableEq

/-- CPython exception matching for an `except target as e:` clause: a
tuple matches when the class of the instance is a subclass of some element; a
list is rejected with `TypeError: catching classes that do not inherit
from BaseException is not allowed` (language semantics, not repo code). -/
def exceptMatches (target : ExceptTarget) (e : ExcClass) : Except PyExc Bool :=
  match target with
  | .tup cs => .ok (cs.any (fun c => e.isSubclassOf c))
  | .lst _ => .error ⟨ExcClass.typeError⟩

/-- Embedding of the wrapper produced by `catch_exception_decorator(func,
callback, exceptions, default)` (func_tools.py lines 33-46), applied to a
call whose `func` outcome is `outcome`. The source leaves `exceptions` a
Python LIST (`[Exception]` by default), and the clause of the wrapper is
`except exceptions as e`. Result: `.ok (v, none)` when `func` returned
`v`; `.ok (dflt, some e)` when the clause caught `e`, called
`callback(e)` and returned the default; `.error` when an exception
propagates out of the wrapper. -/
def catch_exception_wrapper (exceptions : Option (List ExcClass))
    (outcome : Except PyExc Val) (dflt : Val) : Except PyExc (Val × Option PyExc) :=
  let target : ExceptTarget := .lst (exceptions.getD [ExcClass.excBase])
  match outcome with
  | .ok v => .ok (v, none)
  | .error e =>
    match exceptMatches target e.cls with
    | .error te => .error te
    | .ok true => .ok (dflt, some e)
    | .ok false => .error e

/-- Whether an `Except` value is a success. -/
def exceptIsOk {ε α : Type} : Except ε α → Bool
  | .ok _ => true
  | .error _ => false

/-! ## Theorems settling the claims -/

/-- Helper: when every transport call succeeds, the delivery loop attempts
exactly the listed calls and raises nothing. -/
theorem runActions_all_ok {ε : Type} (behave : TgAction → Option ε)
    (h : ∀ a, behave a = none) : ∀ l, runActions behave l = (l, none) := by
  intro l
  induction l with
  | nil => rfl
  | cons a rest ih => simp [runActions, h a, ih]

/-- C1: for every text, `TelegramHandler.send` delivers the text as a plain
message to each destination when its length is at most 4096, and as a
document attachment (the file `logs/<rand>-logs.txt` holding the text)
when its length is strictly greater than 4096; stated for a transport and
file system that do not fail, so that the full delivery trace is visible. -/
theorem c1_send_threshold {ε : Type} (h : TelegramHandler)
    (behave : TgAction → Option ε) (fw : String → String → Option ε)
    (rand_name msg : String)
    (hb : ∀ a, behave a = none) (hfw : ∀ p c, fw p c = none) :
    (msg.length ≤ 4096 →
      (h.send behave fw rand_name msg).1
        = h.chat_ids.map (fun c => TgAction.message c msg))
    ∧ (msg.length > 4096 →
      (h.send behave fw rand_name msg).1
        = h.chat_ids.map (fun c => TgAction.document c ("logs/" ++ rand_name ++ "-logs.txt"))) := by
  constructor
  · intro hlen
    have hnot : ¬ msg.length > TelegramHandler._MAX_LEN := by
      simp [TelegramHandler._MAX_LEN]
      omega
    simp [TelegramHandler.send, TelegramHandler.sendBody, hnot,
      TelegramHandler._send_message, runActions_all_ok behave hb]
  · intro hlen
    have hgt : msg.length > TelegramHandler._MAX_LEN := by
      simp [TelegramHandler._MAX_LEN]
      omega
    simp [TelegramHandler.send, TelegramHandler.sendBody, hgt,
      TelegramHandler._send_as_document, hfw, TelegramHandler._send_document,
      runActions_all_ok behave hb]

/-- A 4096-character text, for the boundary instance of C1. -/
def s4096 : String := String.mk (List.replicate 4096 'a')

/-- A 4097-character text, for the boundary instance of C1. -/
def s4097 : String := String.mk (List.replicate 4097 'a')

theorem s4096_length : s4096.length = 4096 := List.length_replicate 4096 'a'

theorem s4097_length : s4097.length = 4097 := List.length_replicate 4097 'a'

/-- Witness for C1: with destinations `[1, 2]`, the empty text and a
4096-character text go out as plain messages, and a 4097-character text
goes out as a document attachment. -/
theorem c1_send_threshold_witness :
    ((⟨[1, 2], true⟩ : TelegramHandler).send (fun _ => (none : Option Unit))
        (fun _ _ => none) "ab" "").1
      = [TgAction.message 1 "", TgAction.message 2 ""]
    ∧ ((⟨[1, 2], true⟩ : TelegramHandler).send (fun _ => (none : Option Unit))
        (fun _ _ => none) "ab" s4096).1
      = [TgAction.message 1 s4096, TgAction.message 2 s4096]
    ∧ ((⟨[1, 2], true⟩ : TelegramHandler).send (fun _ => (none : Option Unit))
        (fun _ _ => none) "ab" s4097).1
      = [TgAction.document 1 "logs/ab-logs.txt", TgAction.document 2 "logs/ab-logs.txt"] := by
  refine ⟨?_, ?_, ?_⟩
  · exact (c1_send_threshold _ _ _ _ _ (fun _ => rfl) (fun _ _ => rfl)).1 (by decide)
  · exact (c1_send_threshold _ _ _ _ _ (fun _ => rfl) (fun _ _ => rfl)).1
      (by rw [s4096_length])
  · exact (c1_send_threshold _ _ _ _ _ (fun _ => rfl) (fun _ _ => rfl)).2
      (by rw [gt_iff_lt, s4097_length]; omega)

/-- C2: `TelegramHandler.send` never raises, whatever the transport and the
file system do: when the delivery body raises an exception `e`, `send`
still returns (the `List ε` result type is total) with `e` reported as
the printed diagnostic, and when the body raises nothing, `send` returns
with no diagnostic. -/
theorem c2_send_catches {ε : Type} (h : TelegramHandler)
    (behave : TgAction → Option ε) (fw : String → String → Option ε)
    (rand_name msg : String) :
    (∀ e, (h.sendBody behave fw rand_name msg).2 = some e →
      h.send behave fw rand_name msg = ((h.sendBody behave fw rand_name msg).1, [e]))
    ∧ ((h.sendBody behave fw rand_name msg).2 = none →
      h.send behave fw rand_name msg = ((h.sendBody behave fw rand_name msg).1, [])) := by
  constructor
  · intro e he
    simp [TelegramHandler.send, he]
  · intro hnone
    simp [TelegramHandler.send, hnone]

/-- Witness for C2: a transport that raises `boom` on every call makes
`send` return normally with the diagnostic `boom` recorded. -/
theorem c2_send_catches_witness :
    (⟨[1], true⟩ : TelegramHandler).send (fun _ => some "boom") (fun _ _ => none) "ab" "x"
      = ([TgAction.message 1 "x"], ["boom"]) :=
  (c2_send_catches _ _ _ _ _).1 "boom" rfl

/-- C3 counterexample: with the explicit enable flag set, a token supplied
and an EMPTY destination list, construction does not fail — it succeeds
and attaches the telegram sink, because `__handle_telegram` only compares
against `None` and never checks emptiness. -/
theorem c3_counterexample :
    NiceLogger.init "n" _FORMAT false true (some "tok") (some []) true true
        "midnight" 2 "utf-8" "logs"
      = .ok ⟨[Handler.stream ⟨"n", _FORMAT, true⟩,
              Handler.telegram (some "tok") (some ([] : List Int)) true], []⟩ := rfl

/-- C3 (amended): if the explicit enable flag is set and the token or the
chat id list is `None`, construction fails with a configuration error (no
state is produced, so no sink is attached); in every successful
construction the telegram sink is attached exactly when the explicit flag
is set or both token and chat id list are supplied (non-`None`;
emptiness of the list is not checked). -/
theorem c3_amended_validation (name fmt : String) (enable_file enable_telegram : Bool)
    (telegram_token : Option String) (telegram_chat_ids : Option (List Int))
    (tele_run_async colored : Bool) (when_ : String) (backup_count : Nat)
    (encoding log_folder : String) :
    (enable_telegram = true → (telegram_token = none ∨ telegram_chat_ids = none) →
      exceptIsOk (NiceLogger.init name fmt enable_file enable_telegram telegram_token
          telegram_chat_ids tele_run_async colored when_ backup_count encoding log_folder)
        = false)
    ∧ ∀ st, NiceLogger.init name fmt enable_file enable_telegram telegram_token
          telegram_chat_ids tele_run_async colored when_ backup_count encoding log_folder
        = .ok st →
      (st.handlers.any Handler.isTelegram = true
        ↔ (enable_telegram = true ∨ (telegram_token ≠ none ∧ telegram_chat_ids ≠ none))) := by
  constructor
  · intro he hmiss
    subst he
    rcases hmiss with hh | hh <;> subst hh
    · simp [NiceLogger.init, __handle_telegram, exceptIsOk]
    · rcases telegram_token with _ | tok <;>
        simp [NiceLogger.init, __handle_telegram, exceptIsOk]
  · intro st hst
    cases enable_telegram <;> rcases telegram_token with _ | tok <;>
      rcases telegram_chat_ids with _ | cids <;> cases enable_file <;>
      simp [NiceLogger.init, __handle_telegram] at hst <;>
      simp [← hst, Handler.isTelegram]

/-- Witness for C3 (amended): a construction with the flag set and no
token fails; a construction with the flag unset but both token and chat
ids supplied attaches the telegram sink. -/
theorem c3_amended_validation_witness :
    exceptIsOk (NiceLogger.init "n" _FORMAT true true none (some [1]) true true
        "midnight" 2 "utf-8" "logs") = false
    ∧ ((⟨[Handler.stream ⟨"n", _FORMAT, true⟩,
          Handler.telegram (some "tok") (some [1]) true], []⟩ : NiceLoggerState).handlers.any
          Handler.isTelegram = true
        ↔ (false = true ∨ ((some "tok" : Option String) ≠ none
            ∧ (some [1] : Option (List Int)) ≠ none))) :=
  ⟨(c3_amended_validation "n" _FORMAT true true none (some [1]) true true
      "midnight" 2 "utf-8" "logs").1 rfl (Or.inl rfl),
   (c3_amended_validation "n" _FORMAT false false (some "tok") (some [1]) true true
      "midnight" 2 "utf-8" "logs").2
     ⟨[Handler.stream ⟨"n", _FORMAT, true⟩, Handler.telegram (some "tok") (some [1]) true], []⟩
     rfl⟩

/-- C4: `_make_message` returns exactly `[tag] - msg` with no context,
appends ` | ` and the tuple rendering when positional context is given,
then ` | ` and the dict rendering when keyword context is given, in that
order; including the two concrete instances of the claim. -/
theorem c4_make_message (msg tag : String) (args : List String)
    (kwargs : List (String × String)) :
    _make_message msg (some tag) args kwargs
      = "[" ++ tag ++ "] - " ++ msg
        ++ (if args.length > 0 then " | " ++ reprTuple args else "")
        ++ (if kwargs.length > 0 then " | " ++ reprDict kwargs else "")
    ∧ _make_message "x" (some "t") ["1", "2"] [] = "[t] - x | (1, 2)"
    ∧ _make_message "x" (some "t") [] [("k", "1")] = "[t] - x | \x7b\x27k\x27: 1\x7d" := by
  refine ⟨?_, by decide, by decide⟩
  simp only [_make_message, pyStr]
  rcases args with _ | ⟨a, as⟩ <;> rcases kwargs with _ | ⟨k, ks⟩ <;>
    simp [String.append_assoc]

/-- C5 evaluation: constructing with `log_folder = "mylogs"` and the file
sink enabled creates the folder `mylogs` but attaches the rotating file
handler under the hardcoded base name `logs/app-logs`, not
`mylogs/app-logs` as the claim states. -/
theorem c5_rotating_file_folder :
    NiceLogger.init "app" _FORMAT true false none none true true "midnight" 2 "utf-8" "mylogs"
      = .ok ⟨[Handler.stream ⟨"app", _FORMAT, true⟩,
              Handler.timedRotatingFile "logs/app-logs" "midnight" 2 "utf-8"
                ⟨"app", _FORMAT, false⟩],
             ["mylogs"]⟩
    ∧ Handler.timedRotatingFile "mylogs/app-logs" "midnight" 2 "utf-8" ⟨"app", _FORMAT, false⟩
        ∉ [Handler.stream ⟨"app", _FORMAT, true⟩,
           Handler.timedRotatingFile "logs/app-logs" "midnight" 2 "utf-8"
             ⟨"app", _FORMAT, false⟩] := by
  exact ⟨rfl, by decide⟩

/-- C6 evaluation: invoking a callable wrapped by `run_in_thread_decorator`
with the single positional argument `5` starts a thread running the
wrapped callable with exactly that argument, but invoking one wrapped by
`run_in_threadpool_decorator` the same way binds `5` to `return_result`
(truthy, so the submission blocks) and submits the wrapped callable with
NO arguments. -/
theorem c6_decorator_args :
    run_in_thread_decorator [Val.vint 5] [] = .ok ⟨[Val.vint 5], []⟩
    ∧ run_in_threadpool_decorator [Val.vint 5] [] = .ok ⟨[], [], true⟩ :=
  ⟨rfl, rfl⟩

/-- C7: `run_in_threadpool` with `return_result` true returns the value
the submitted callable computes (the blocking `result()` path), and with
`return_result` false returns `None`. -/
theorem c7_run_in_threadpool {α β : Type} (func : α → β) (x : α) :
    run_in_threadpool func true x = some (func x)
    ∧ run_in_threadpool func false x = none :=
  ⟨rfl, rfl⟩

/-- C8: for a component name and format string free of ANSI escapes, each
of the five level entries of the colored table is the level color code,
then the templated body, then the reset code — one ESC in the color code,
one in the reset, none in the body — while the uncolored table gives
every level the same escape-free body. -/
theorem c8_ansi_codes (name fmt : String)
    (hn : countEsc name = 0) (hf : countEsc fmt = 0) :
    ∀ lvl ∈ levelNos,
      (dictGet (ColoredFormatter.formats name fmt true) lvl
          = some (levelColor lvl ++ ("[" ++ name ++ "] - " ++ fmt) ++ reset)
        ∧ countEsc (levelColor lvl) = 1
        ∧ countEsc reset = 1
        ∧ countEsc ("[" ++ name ++ "] - " ++ fmt) = 0)
      ∧ dictGet (ColoredFormatter.formats name fmt false) lvl
          = some ("[" ++ name ++ "] - " ++ fmt) := by
  have h1 : countEsc "[" = 0 := by decide
  have h2 : countEsc "] - " = 0 := by decide
  have hbody : countEsc ("[" ++ name ++ "] - " ++ fmt) = 0 := by
    simp [countEsc_append, hn, hf, h1, h2]
  intro lvl hlvl
  simp only [levelNos, List.mem_cons, List.not_mem_nil, or_false] at hlvl
  rcases hlvl with rfl | rfl | rfl | rfl | rfl <;>
    exact ⟨⟨rfl, by decide, by decide, hbody⟩, rfl⟩

/-- Witness for C8: the default format string and the name `app` carry no
ANSI escape, and the table entries decompose as stated. -/
theorem c8_ansi_codes_witness :
    countEsc "app" = 0 ∧ countEsc _FORMAT = 0
    ∧ ∀ lvl ∈ levelNos,
      (dictGet (ColoredFormatter.formats "app" _FORMAT true) lvl
          = some (levelColor lvl ++ ("[" ++ "app" ++ "] - " ++ _FORMAT) ++ reset)
        ∧ countEsc (levelColor lvl) = 1
        ∧ countEsc reset = 1
        ∧ countEsc ("[" ++ "app" ++ "] - " ++ _FORMAT) = 0)
      ∧ dictGet (ColoredFormatter.formats "app" _FORMAT false) lvl
          = some ("[" ++ "app" ++ "] - " ++ _FORMAT) :=
  ⟨by decide, by decide, c8_ansi_codes "app" _FORMAT (by decide) (by decide)⟩

/-- C9: for a record whose level is not one of the five recognized levels,
the table lookup fails closed (`dict.get` returns `None`) and
`ColoredFormatter.format` still renders the record, through the default
`%(message)s` template of `logging.Formatter`; and each recognized level
has exactly one entry in the table. -/
theorem c9_unknown_level (name fmt : String) (colored : Bool) (r : LogRecord)
    (hlvl : r.levelno ∉ levelNos) :
    dictGet (ColoredFormatter.formats name fmt colored) r.levelno = none
    ∧ ColoredFormatter.format (ColoredFormatter.formats name fmt colored) r
        = loggingFormat "%(message)s" r
    ∧ ∀ lvl ∈ levelNos,
        (ColoredFormatter.formats name fmt colored).countP (fun p => p.1 == lvl) = 1 := by
  simp only [levelNos, List.mem_cons, List.not_mem_nil, or_false, not_or] at hlvl
  obtain ⟨n10, n20, n30, n40, n50⟩ := hlvl
  have hget : dictGet (ColoredFormatter.formats name fmt colored) r.levelno = none := by
    rw [dictGet, Option.map_eq_none', List.find?_eq_none]
    intro p hp
    cases colored <;> simp [ColoredFormatter.formats] at hp <;>
      rcases hp with rfl | rfl | rfl | rfl | rfl <;>
      simp [beq_iff_eq] <;> omega
  refine ⟨hget, ?_, ?_⟩
  · simp [ColoredFormatter.format, hget, formatterFmt]
  · intro lvl hl
    simp only [levelNos, List.mem_cons, List.not_mem_nil, or_false] at hl
    rcases hl with rfl | rfl | rfl | rfl | rfl <;> cases colored <;> rfl

/-- Witness for C9: level 15 is not recognized; the lookup returns `None`
and the record renders through the default template. -/
theorem c9_unknown_level_witness :
    (⟨15, "LEVEL15", "hello", 3, "fn", "now"⟩ : LogRecord).levelno ∉ levelNos
    ∧ (dictGet (ColoredFormatter.formats "n" _FORMAT true)
          (⟨15, "LEVEL15", "hello", 3, "fn", "now"⟩ : LogRecord).levelno = none
      ∧ ColoredFormatter.format (ColoredFormatter.formats "n" _FORMAT true)
          ⟨15, "LEVEL15", "hello", 3, "fn", "now"⟩
        = loggingFormat "%(message)s" ⟨15, "LEVEL15", "hello", 3, "fn", "now"⟩
      ∧ ∀ lvl ∈ levelNos,
          (ColoredFormatter.formats "n" _FORMAT true).countP (fun p => p.1 == lvl) = 1) :=
  ⟨by decide, c9_unknown_level "n" _FORMAT true _ (by decide)⟩

/-- C10 evaluation: with the default exception list, a non-raising call
passes its value through unchanged, but when the wrapped callable raises
a `ValueError` the wrapper raises `TypeError` (the `except` target is a
Python list, which exception matching rejects) — the callback is never
invoked and the default is never returned. -/
theorem c10_catch_exception :
    catch_exception_wrapper none (Except.ok (Val.vint 7)) Val.vnone
      = .ok (Val.vint 7, none)
    ∧ catch_exception_wrapper none (Except.error ⟨ExcClass.valueError⟩) Val.vnone
      = .error ⟨ExcClass.typeError⟩ :=
  ⟨rfl, rfl⟩

end NiceTools
